import Mathlib

/-!
Shallow embedding of `src/forecast.py` (class `SimpleTimeSeries`).

The Python object holds `self.data` (a list of numbers) and
`self.seasonal_period` (set to 12 by the constructor).  We embed the
methods as pure functions over `List ℚ`, passing the seasonal period `s`
explicitly.  A Python exception (the explicit `ValueError` in
`forecast_next_periods`, and the `ZeroDivisionError` raised by `x / 0`)
is modelled as `none`; a normal return is `some`.
-/

namespace SimpleTimeSeries

/-- `calculate_moving_average` (src/forecast.py lines 15-22).
Python iterates `i in range(len(data) - window_size + 1)` and appends
`sum(data[i:i+window_size]) / window_size`.  When `window_size = 0` the
range is `range(N+1)`, never empty, and the first division `0 / 0`
raises `ZeroDivisionError` (modelled as `none`).  For `window_size ≥ 1`
the count `N - window_size + 1` clamps at zero exactly as
`Nat` subtraction `N + 1 - window_size` does. -/
def calculate_moving_average (data : List ℚ) (window_size : ℕ) : Option (List ℚ) :=
  if window_size = 0 then none
  else some ((List.range (data.length + 1 - window_size)).map fun i =>
    ((data.drop i).take window_size).sum / (window_size : ℚ))

/-- Number of observation indices `i < len(data)` with `i % s = k`
(the final value of `seasonal_counts[k]` in src/forecast.py lines 26-32). -/
def seasonal_count (data : List ℚ) (s k : ℕ) : ℕ :=
  ((List.range data.length).filter fun i => i % s = k).length

/-- Sum of the observations at indices `i` with `i % s = k`
(the final value of `seasonal_averages[k]` in src/forecast.py lines 26-32). -/
def seasonal_sum (data : List ℚ) (s k : ℕ) : ℚ :=
  (((List.range data.length).filter fun i => i % s = k).map fun i =>
    data.getD i 0).sum

/-- The un-normalized factors `avg / count if count > 0 else 1`
(src/forecast.py lines 34-37). -/
def raw_seasonal_factors (data : List ℚ) (s : ℕ) : List ℚ :=
  (List.range s).map fun k =>
    if 0 < seasonal_count data s k then
      seasonal_sum data s k / (seasonal_count data s k : ℚ)
    else 1

/-- The mean `sum(seasonal_factors) / len(seasonal_factors)` used for
normalization (src/forecast.py line 40); `len(seasonal_factors) = s`. -/
def factor_mean (data : List ℚ) (s : ℕ) : ℚ :=
  (raw_seasonal_factors data s).sum / (s : ℚ)

/-- `calculate_seasonal_factors` (src/forecast.py lines 24-43).
The normalization `f / factor_mean` raises `ZeroDivisionError` when
`factor_mean` is zero (there is no guard in the source); this is
modelled as `none`.  (When `s = 0` Python raises as well — at `i % 0`
inside the loop for nonempty data, or at `sum([]) / 0` for empty data —
and in that case `factor_mean = 0 / 0`, which Lean's `ℚ` evaluates to
`0`, so the `none` branch is also taken.) -/
def calculate_seasonal_factors (data : List ℚ) (s : ℕ) : Option (List ℚ) :=
  if factor_mean data s = 0 then none
  else some ((raw_seasonal_factors data s).map fun f => f / factor_mean data s)

/-- `last_level = sum(self.data[-s:]) / s` (src/forecast.py line 63).
For `s ≥ 1`, Python's `data[-s:]` is the final `min s N` observations,
i.e. `data.drop (N - s)` with truncated subtraction. -/
def last_level (data : List ℚ) (s : ℕ) : ℚ :=
  (data.drop (data.length - s)).sum / (s : ℚ)

/-- `trend_change = (ma[-1] - ma[0]) / len(ma)` (src/forecast.py line 56). -/
def trend_change (ma : List ℚ) : ℚ :=
  (ma.getLastD 0 - ma.headD 0) / (ma.length : ℚ)

/-- `forecast_next_periods` (src/forecast.py lines 45-77).
Raises `ValueError` when `len(data) < seasonal_period * 2`; otherwise
builds the forecast list element by element:
`(last_level + trend_change * (i+1)) * seasonal_factors[(N + i) % s]`.
On the reachable paths (`s ≥ 1`, `N ≥ 2s`) the moving average is a
nonempty list, so `ma[-1]`, `ma[0]` and `len(ma)` are the total
`getLastD`/`headD`/`length` used by `trend_change`. -/
def forecast_next_periods (data : List ℚ) (s : ℕ) (periods : ℕ) : Option (List ℚ) :=
  if data.length < s * 2 then none
  else
    match calculate_moving_average data s with
    | none => none
    | some ma =>
      match calculate_seasonal_factors data s with
      | none => none
      | some seasonal_factors =>
        some ((List.range periods).map fun (i : ℕ) =>
          (last_level data s + trend_change ma * ((i : ℚ) + 1)) *
            seasonal_factors.getD ((data.length + i) % s) 0)

/-! ### Helper lemmas -/

lemma getD_map_range (f : ℕ → ℚ) {n i : ℕ} (h : i < n) :
    ((List.range n).map f).getD i 0 = f i := by
  simp [List.getD_eq_getElem?_getD, List.getElem?_range h]

lemma length_raw_seasonal_factors (data : List ℚ) (s : ℕ) :
    (raw_seasonal_factors data s).length = s := by
  simp [raw_seasonal_factors]

lemma sum_map_div (l : List ℚ) (c : ℚ) :
    (l.map fun x => x / c).sum = l.sum / c := by
  induction l with
  | nil => simp
  | cons a t ih => simp [ih, add_div]

lemma calculate_moving_average_run (data : List ℚ) {s : ℕ} (hs : s ≠ 0) :
    calculate_moving_average data s =
      some ((List.range (data.length + 1 - s)).map fun i =>
        ((data.drop i).take s).sum / (s : ℚ)) := by
  simp [calculate_moving_average, hs]

lemma calculate_seasonal_factors_run (data : List ℚ) {s : ℕ}
    (hm : factor_mean data s ≠ 0) :
    calculate_seasonal_factors data s =
      some ((raw_seasonal_factors data s).map fun f => f / factor_mean data s) := by
  simp [calculate_seasonal_factors, hm]

lemma forecast_next_periods_run (data : List ℚ) {s : ℕ} (periods : ℕ)
    (hs : s ≠ 0) (hN : s * 2 ≤ data.length) (hm : factor_mean data s ≠ 0) :
    forecast_next_periods data s periods =
      some ((List.range periods).map fun (i : ℕ) =>
        (last_level data s +
          trend_change ((List.range (data.length + 1 - s)).map fun j =>
            ((data.drop j).take s).sum / (s : ℚ)) * ((i : ℚ) + 1)) *
        ((raw_seasonal_factors data s).map fun f =>
          f / factor_mean data s).getD ((data.length + i) % s) 0) := by
  simp only [forecast_next_periods]
  rw [if_neg (by omega), calculate_moving_average_run data hs,
    calculate_seasonal_factors_run data hm]

/-! ### Flat (constant) series -/

lemma seasonal_count_pos (data : List ℚ) {s k : ℕ} (hk : k < s)
    (hkn : k < data.length) : 0 < seasonal_count data s k := by
  have hmem : k ∈ (List.range data.length).filter fun i => i % s = k :=
    List.mem_filter.mpr ⟨List.mem_range.mpr hkn, by simp [Nat.mod_eq_of_lt hk]⟩
  exact List.length_pos_of_mem hmem

lemma seasonal_sum_replicate (n s k : ℕ) (c : ℚ) :
    seasonal_sum (List.replicate n c) s k =
      (seasonal_count (List.replicate n c) s k : ℚ) * c := by
  rw [seasonal_sum, seasonal_count]
  have hall : ∀ x ∈ ((List.range (List.replicate n c).length).filter
      fun i => i % s = k).map fun i => (List.replicate n c).getD i 0, x = c := by
    intro x hx
    rw [List.mem_map] at hx
    obtain ⟨i, hi, rfl⟩ := hx
    have hin : i < n := by
      have := List.mem_range.mp (List.mem_filter.mp hi).1
      simpa using this
    simp [List.getD_eq_getElem?_getD, List.getElem?_replicate_of_lt hin]
  rw [List.sum_eq_card_nsmul _ c hall]
  simp [nsmul_eq_mul]

lemma raw_seasonal_factors_replicate {n s : ℕ} (c : ℚ) (hsn : s ≤ n) :
    raw_seasonal_factors (List.replicate n c) s = List.replicate s c := by
  rw [raw_seasonal_factors]
  refine List.eq_replicate_iff.mpr ⟨by simp, ?_⟩
  intro b hb
  rw [List.mem_map] at hb
  obtain ⟨k, hk, rfl⟩ := hb
  rw [List.mem_range] at hk
  have hpos : 0 < seasonal_count (List.replicate n c) s k :=
    seasonal_count_pos _ hk (by simp; omega)
  rw [if_pos hpos, seasonal_sum_replicate,
    mul_div_cancel_left₀ _ (Nat.cast_ne_zero.mpr hpos.ne')]

lemma factor_mean_replicate {n s : ℕ} (c : ℚ) (hs : s ≠ 0) (hsn : s ≤ n) :
    factor_mean (List.replicate n c) s = c := by
  rw [factor_mean, raw_seasonal_factors_replicate c hsn, List.sum_replicate,
    nsmul_eq_mul, mul_div_cancel_left₀ _ (Nat.cast_ne_zero.mpr hs)]

lemma last_level_replicate {n s : ℕ} (c : ℚ) (hs : s ≠ 0) (hsn : s ≤ n) :
    last_level (List.replicate n c) s = c := by
  rw [last_level]
  simp only [List.length_replicate, List.drop_replicate, List.sum_replicate,
    nsmul_eq_mul]
  rw [show n - (n - s) = s by omega,
    mul_div_cancel_left₀ _ (Nat.cast_ne_zero.mpr hs)]

lemma getLastD_replicate (c d : ℚ) : ∀ m : ℕ,
    (List.replicate (m + 1) c).getLastD d = c
  | 0 => rfl
  | m + 1 => by
    rw [List.replicate_succ, List.getLastD_cons]
    exact getLastD_replicate c c m

lemma trend_change_replicate (m : ℕ) (c : ℚ) :
    trend_change (List.replicate m c) = 0 := by
  cases m with
  | zero => simp [trend_change]
  | succ m' =>
    rw [trend_change, getLastD_replicate c 0 m']
    rw [show (List.replicate (m' + 1) c).headD 0 = c by
      simp [List.replicate_succ]]
    simp

lemma moving_average_replicate {n s : ℕ} (c : ℚ) (hs : s ≠ 0) (hsn : s ≤ n) :
    calculate_moving_average (List.replicate n c) s =
      some (List.replicate (n + 1 - s) c) := by
  rw [calculate_moving_average_run _ hs]
  congr 1
  refine List.eq_replicate_iff.mpr ⟨by simp, ?_⟩
  intro b hb
  rw [List.mem_map] at hb
  obtain ⟨i, hi, rfl⟩ := hb
  rw [List.mem_range, List.length_replicate] at hi
  rw [List.drop_replicate, List.take_replicate,
    show min s (n - i) = s by omega, List.sum_replicate, nsmul_eq_mul,
    mul_div_cancel_left₀ _ (Nat.cast_ne_zero.mpr hs)]

/-! ### Theorems about the claims -/

/-- C3: for `1 ≤ w ≤ N`, `calculate_moving_average` returns a list of
length exactly `N - w + 1` whose element `i` is the arithmetic mean of
the observations at indices `i .. i+w-1` (the slice `data[i:i+w]`),
with no padding at the boundaries. -/
theorem calculate_moving_average_spec (data : List ℚ) (w : ℕ)
    (h1 : 1 ≤ w) (h2 : w ≤ data.length) :
    ∃ l, calculate_moving_average data w = some l ∧
      l.length = data.length - w + 1 ∧
      ∀ i, i < data.length - w + 1 →
        l.getD i 0 = ((data.drop i).take w).sum / (w : ℚ) := by
  have hw0 : ¬ w = 0 := by omega
  refine ⟨(List.range (data.length + 1 - w)).map fun i =>
      ((data.drop i).take w).sum / (w : ℚ), ?_, ?_, ?_⟩
  · simp [calculate_moving_average, hw0]
  · simp
    omega
  · intro i hi
    exact getD_map_range _ (by omega)

/-- C3 witness: the moving average of `[1, 2, 3, 4]` with window 2. -/
theorem calculate_moving_average_spec_witness :
    ∃ l, calculate_moving_average [1, 2, 3, 4] 2 = some l ∧
      l.length = ([1, 2, 3, 4] : List ℚ).length - 2 + 1 ∧
      ∀ i, i < ([1, 2, 3, 4] : List ℚ).length - 2 + 1 →
        l.getD i 0 = ((([1, 2, 3, 4] : List ℚ).drop i).take 2).sum / (2 : ℚ) :=
  calculate_moving_average_spec [1, 2, 3, 4] 2 (by decide) (by decide)

/-- C6 counterexample: with a window larger than the data
(`w = 4 > 3 = N`) the smoother returns the empty list as a normal
result — there is no `InvalidWindow` failure in the source. -/
theorem calculate_moving_average_no_invalid_window_cx :
    calculate_moving_average [1, 2, 3] 4 = some [] := by decide

/-- C6 amended: the source has no window validation at all.  For
`w > N` the loop body never runs and the empty list is returned
normally; for `w = 0` the call does fail, but with a division-by-zero
(`sum(window) / 0`), not an `InvalidWindow` condition. -/
theorem calculate_moving_average_no_validation (data : List ℚ) (w : ℕ) :
    (data.length < w → calculate_moving_average data w = some []) ∧
    (w = 0 → calculate_moving_average data w = none) := by
  constructor
  · intro h
    have hw0 : ¬ w = 0 := by omega
    have h0 : data.length + 1 - w = 0 := by omega
    simp [calculate_moving_average, hw0, h0]
  · intro h
    simp [calculate_moving_average, h]

/-- C6 amended witness: both branches at concrete inputs. -/
theorem calculate_moving_average_no_validation_witness :
    calculate_moving_average [1, 2, 3] 5 = some [] ∧
    calculate_moving_average [1, 2, 3] 0 = none :=
  ⟨(calculate_moving_average_no_validation [1, 2, 3] 5).1 (by decide),
   (calculate_moving_average_no_validation [1, 2, 3] 0).2 rfl⟩

/-- C10: for `w > N` the smoother returns the empty sequence without
raising — the iteration over starting indices is empty. -/
theorem calculate_moving_average_oversized (data : List ℚ) (w : ℕ)
    (h : data.length < w) : calculate_moving_average data w = some [] := by
  have hw0 : ¬ w = 0 := by omega
  have h0 : data.length + 1 - w = 0 := by omega
  simp [calculate_moving_average, hw0, h0]

/-- C10 witness: window 3 on a 2-element series yields `some []`. -/
theorem calculate_moving_average_oversized_witness :
    calculate_moving_average [1, 2] 3 = some [] :=
  calculate_moving_average_oversized [1, 2] 3 (by decide)

/-- C9: a cycle position `k < s` with no observation (`i % s = k` for
no index `i`) gets raw (pre-normalization) seasonal factor exactly 1,
via the `else 1` branch; the guard `count > 0` means the computation
does not fail there. -/
theorem raw_seasonal_factors_empty_position (data : List ℚ) (s k : ℕ)
    (hk : k < s) (h : seasonal_count data s k = 0) :
    (raw_seasonal_factors data s).getD k 0 = 1 := by
  simp only [raw_seasonal_factors]
  rw [getD_map_range _ hk]
  simp [h]

/-- C9 witness: series `[5]` with `s = 2`: position 1 has no
observation and its raw factor is 1. -/
theorem raw_seasonal_factors_empty_position_witness :
    (raw_seasonal_factors [5] 2).getD 1 0 = 1 :=
  raw_seasonal_factors_empty_position [5] 2 1 (by decide) (by decide)

/-- C8 counterexample: series `[1, -5, 1, -5]` with `s = 2`.  Position
0 has two observations of average `1` (nonzero), yet its normalized
factor is `-1/2 < 0`, because the factor mean `-2` is negative. -/
theorem seasonal_factor_pos_cx :
    calculate_seasonal_factors [1, -5, 1, -5] 2 =
      some [-(1 : ℚ)/2, 5/2] ∧
    seasonal_sum [1, -5, 1, -5] 2 0 / (seasonal_count [1, -5, 1, -5] 2 0 : ℚ) = 1 ∧
    ¬ (0 < (-(1 : ℚ)/2)) := by
  refine ⟨?_, ?_, by norm_num⟩
  · norm_num [calculate_seasonal_factors, factor_mean, raw_seasonal_factors,
      seasonal_sum, seasonal_count,
      (by decide : List.range 4 = [0, 1, 2, 3]),
      (by decide : List.range 2 = [0, 1])]
  · norm_num [seasonal_sum, seasonal_count,
      (by decide : List.range 4 = [0, 1, 2, 3])]

/-- C8 amended: the normalized factor at position `k` is positive
whenever the position has at least one observation and its raw factor
has the same sign as the mean of the raw factors (their product is
positive); sign alone of the position average is not enough. -/
theorem seasonal_factor_pos (data : List ℚ) (s k : ℕ) (hk : k < s)
    (_hcount : 0 < seasonal_count data s k)
    (hsign : 0 < (raw_seasonal_factors data s).getD k 0 * factor_mean data s) :
    ∃ l, calculate_seasonal_factors data s = some l ∧ 0 < l.getD k 0 := by
  have hm : factor_mean data s ≠ 0 := by
    intro h
    rw [h, mul_zero] at hsign
    exact lt_irrefl 0 hsign
  refine ⟨(raw_seasonal_factors data s).map fun f => f / factor_mean data s,
    ?_, ?_⟩
  · simp [calculate_seasonal_factors, hm]
  · rw [show (raw_seasonal_factors data s).getD k 0 =
        (if 0 < seasonal_count data s k then
          seasonal_sum data s k / (seasonal_count data s k : ℚ) else 1) by
      simp only [raw_seasonal_factors]; rw [getD_map_range _ hk]] at hsign
    simp only [raw_seasonal_factors, List.map_map]
    rw [getD_map_range _ hk]
    exact div_pos_iff.mpr (mul_pos_iff.mp hsign)

/-- C8 amended witness: series `[1, 2, 1, 2]` with `s = 2`, position 0:
raw factor 1, factor mean `3/2`, normalized factor `2/3 > 0`. -/
theorem seasonal_factor_pos_witness :
    ∃ l, calculate_seasonal_factors [1, 2, 1, 2] 2 = some l ∧ 0 < l.getD 0 0 :=
  seasonal_factor_pos [1, 2, 1, 2] 2 0 (by decide) (by decide)
    (by norm_num [factor_mean, raw_seasonal_factors, seasonal_sum, seasonal_count,
      (by decide : List.range 4 = [0, 1, 2, 3]),
      (by decide : List.range 2 = [0, 1])])

/-- C5: on an all-zero series of two full cycles (`s = 12`), every raw
seasonal factor is 0, the factor mean is 0, and the normalization
`f / factor_mean` raises `ZeroDivisionError` (modelled as `none`)
instead of returning the neutral all-ones vector the spec requires. -/
theorem calculate_seasonal_factors_all_zero_raises :
    calculate_seasonal_factors (List.replicate 24 0) 12 = none := by
  norm_num [calculate_seasonal_factors, factor_mean, raw_seasonal_factors,
    seasonal_sum, seasonal_count,
    (show (List.replicate 24 (0 : ℚ)) =
      [0, 0, 0, 0, 0, 0, 0, 0, 0, 0, 0, 0, 0, 0, 0, 0, 0, 0, 0, 0, 0, 0, 0, 0]
      from rfl),
    (by decide : List.range 24 =
      [0, 1, 2, 3, 4, 5, 6, 7, 8, 9, 10, 11, 12, 13, 14, 15, 16, 17, 18, 19,
       20, 21, 22, 23]),
    (by decide : List.range 12 = [0, 1, 2, 3, 4, 5, 6, 7, 8, 9, 10, 11])]

/-- C1 counterexample: on the all-zero series of length 24 (`≥ 2·12`)
with `periods = 1`, `forecast_next_periods` raises (division by the
zero factor mean) instead of returning a length-1 sequence. -/
theorem forecast_next_periods_formula_cx :
    forecast_next_periods (List.replicate 24 0) 12 1 = none := by
  have hm : factor_mean (List.replicate 24 0) 12 = 0 :=
    factor_mean_replicate 0 (by norm_num) (by norm_num)
  have hcsf : calculate_seasonal_factors (List.replicate 24 0) 12 = none := by
    simp only [calculate_seasonal_factors, hm]
    simp
  simp only [forecast_next_periods, hcsf]
  rw [if_neg (by norm_num [List.length_replicate]),
    calculate_moving_average_run _ (by norm_num)]

/-- C1 amended: for `N ≥ 2s`, `periods ≥ 1`, and a nonzero raw-factor
mean (so the normalization does not divide by zero), the forecast is
the length-`periods` sequence whose element `i` is
`(last_level + trend_change·(i+1)) · factor[(N+i) mod s]`, with
`trend_change = (last − first)/length` over the window-`s` moving
average, `last_level` the mean of the final `s` raw observations, and
`factor` the normalized seasonal-factor vector. -/
theorem forecast_next_periods_formula (data : List ℚ) (s periods : ℕ)
    (hs : 1 ≤ s) (hN : s * 2 ≤ data.length) (_hp : 1 ≤ periods)
    (hm : factor_mean data s ≠ 0) :
    ∃ ma sf l,
      calculate_moving_average data s = some ma ∧
      calculate_seasonal_factors data s = some sf ∧
      forecast_next_periods data s periods = some l ∧
      l.length = periods ∧
      ∀ i, i < periods → l.getD i 0 =
        (last_level data s + trend_change ma * ((i : ℚ) + 1)) *
          sf.getD ((data.length + i) % s) 0 := by
  refine ⟨_, _, _, calculate_moving_average_run data (by omega),
    calculate_seasonal_factors_run data hm,
    forecast_next_periods_run data periods (by omega) hN hm, ?_, ?_⟩
  · simp
  · intro i hi
    exact getD_map_range _ hi

/-- C1 amended witness: series `[1, 2, 3, 4]`, `s = 2`, `periods = 2`. -/
theorem forecast_next_periods_formula_witness :
    factor_mean [1, 2, 3, 4] 2 ≠ 0 ∧
    ∃ ma sf l,
      calculate_moving_average [1, 2, 3, 4] 2 = some ma ∧
      calculate_seasonal_factors [1, 2, 3, 4] 2 = some sf ∧
      forecast_next_periods [1, 2, 3, 4] 2 2 = some l ∧
      l.length = 2 ∧
      ∀ i, i < 2 → l.getD i 0 =
        (last_level [1, 2, 3, 4] 2 + trend_change ma * ((i : ℚ) + 1)) *
          sf.getD ((([1, 2, 3, 4] : List ℚ).length + i) % 2) 0 :=
  ⟨by norm_num [factor_mean, raw_seasonal_factors, seasonal_sum, seasonal_count,
      (by decide : List.range 4 = [0, 1, 2, 3]),
      (by decide : List.range 2 = [0, 1])],
   forecast_next_periods_formula [1, 2, 3, 4] 2 2 (by norm_num) (by norm_num)
    (by norm_num)
    (by norm_num [factor_mean, raw_seasonal_factors, seasonal_sum, seasonal_count,
      (by decide : List.range 4 = [0, 1, 2, 3]),
      (by decide : List.range 2 = [0, 1])])⟩

/-- C2 counterexample: a series of exactly `2·12 = 24` observations
(twelve `1`s followed by twelve `-1`s) still makes
`forecast_next_periods` raise — every raw seasonal factor is `0`, so
the normalization divides by zero — refuting the "only if fewer than
`2s` observations" direction. -/
theorem forecast_insufficient_iff_cx :
    forecast_next_periods
        [1, 1, 1, 1, 1, 1, 1, 1, 1, 1, 1, 1,
         -1, -1, -1, -1, -1, -1, -1, -1, -1, -1, -1, -1] 12 1 = none ∧
    ([1, 1, 1, 1, 1, 1, 1, 1, 1, 1, 1, 1,
      -1, -1, -1, -1, -1, -1, -1, -1, -1, -1, -1, -1] : List ℚ).length =
      12 * 2 := by
  constructor
  · have hm : factor_mean
        [1, 1, 1, 1, 1, 1, 1, 1, 1, 1, 1, 1,
         -1, -1, -1, -1, -1, -1, -1, -1, -1, -1, -1, -1] 12 = 0 := by
      norm_num [factor_mean, raw_seasonal_factors, seasonal_sum, seasonal_count,
        (show ([1, 1, 1, 1, 1, 1, 1, 1, 1, 1, 1, 1,
          -1, -1, -1, -1, -1, -1, -1, -1, -1, -1, -1, -1] : List ℚ).length = 24
          from rfl),
        (by decide : List.range 24 =
          [0, 1, 2, 3, 4, 5, 6, 7, 8, 9, 10, 11, 12, 13, 14, 15, 16, 17, 18,
           19, 20, 21, 22, 23]),
        (by decide : List.range 12 = [0, 1, 2, 3, 4, 5, 6, 7, 8, 9, 10, 11])]
    simp only [forecast_next_periods]
    rw [if_neg (by norm_num), calculate_moving_average_run _ (by norm_num)]
    simp [calculate_seasonal_factors, hm]
  · rfl

/-- C2 amended: with `s ≥ 1`, `forecast_next_periods` fails exactly
when the series is shorter than `2s` or the mean of the raw seasonal
factors is zero; the result is all-or-nothing (an `Option`), so no
partial forecast is ever returned. -/
theorem forecast_insufficient_iff (data : List ℚ) (s periods : ℕ)
    (hs : 1 ≤ s) :
    (forecast_next_periods data s periods = none ↔
      data.length < s * 2 ∨ factor_mean data s = 0) := by
  by_cases h1 : data.length < s * 2
  · simp [forecast_next_periods, h1]
  · by_cases h2 : factor_mean data s = 0
    · simp only [forecast_next_periods]
      rw [if_neg h1, calculate_moving_average_run data (by omega)]
      simp [calculate_seasonal_factors, h1, h2]
    · rw [forecast_next_periods_run data periods (by omega) (by omega) h2]
      simp [h1, h2]

/-- C2 amended witness: the nine-observation series `[1, ..., 9]` with
`s = 12` is shorter than 24, so the forecast fails. -/
theorem forecast_insufficient_iff_witness :
    (forecast_next_periods [1, 2, 3, 4, 5, 6, 7, 8, 9] 12 1 = none ↔
      ([1, 2, 3, 4, 5, 6, 7, 8, 9] : List ℚ).length < 12 * 2 ∨
        factor_mean [1, 2, 3, 4, 5, 6, 7, 8, 9] 12 = 0) :=
  forecast_insufficient_iff [1, 2, 3, 4, 5, 6, 7, 8, 9] 12 1 (by norm_num)

/-- C4 counterexample: `[1, -1, 1, -1]` with `s = 2` has raw factors
`[1, -1]` — not all zero, so the series is non-degenerate in the
claim's sense — yet their mean is 0 and the normalization raises
instead of returning a mean-1 vector. -/
theorem seasonal_factors_mean_one_cx :
    raw_seasonal_factors [1, -1, 1, -1] 2 = [1, -1] ∧
    calculate_seasonal_factors [1, -1, 1, -1] 2 = none := by
  constructor
  · norm_num [raw_seasonal_factors, seasonal_sum, seasonal_count,
      (by decide : List.range 4 = [0, 1, 2, 3]),
      (by decide : List.range 2 = [0, 1])]
  · norm_num [calculate_seasonal_factors, factor_mean, raw_seasonal_factors,
      seasonal_sum, seasonal_count,
      (by decide : List.range 4 = [0, 1, 2, 3]),
      (by decide : List.range 2 = [0, 1])]

/-- C4 amended: whenever the raw factors have nonzero mean (and
`s ≥ 1`), `calculate_seasonal_factors` returns a vector of length
exactly `s` whose arithmetic mean is exactly 1 in rational
arithmetic. -/
theorem seasonal_factors_mean_one (data : List ℚ) (s : ℕ) (hs : 1 ≤ s)
    (hm : factor_mean data s ≠ 0) :
    ∃ l, calculate_seasonal_factors data s = some l ∧
      l.length = s ∧ l.sum / (s : ℚ) = 1 := by
  have hcast : (s : ℚ) ≠ 0 := Nat.cast_ne_zero.mpr (by omega)
  have hS : (raw_seasonal_factors data s).sum ≠ 0 := by
    intro h
    exact hm (by rw [factor_mean, h, zero_div])
  refine ⟨_, calculate_seasonal_factors_run data hm, ?_, ?_⟩
  · simp [length_raw_seasonal_factors]
  · rw [sum_map_div, factor_mean]
    field_simp

/-- C4 amended witness: `[2, 4, 6, 8]` with `s = 2` gives factors
`[4/5, 6/5]`, of length 2 and mean 1. -/
theorem seasonal_factors_mean_one_witness :
    ∃ l, calculate_seasonal_factors [2, 4, 6, 8] 2 = some l ∧
      l.length = 2 ∧ l.sum / (2 : ℚ) = 1 :=
  seasonal_factors_mean_one [2, 4, 6, 8] 2 (by norm_num)
    (by norm_num [factor_mean, raw_seasonal_factors, seasonal_sum,
      seasonal_count,
      (by decide : List.range 4 = [0, 1, 2, 3]),
      (by decide : List.range 2 = [0, 1])])

/-- C7 counterexample: the flat series of constant `c = 0` and length
24 raises (all raw factors are 0) rather than returning six zeros. -/
theorem forecast_flat_cx :
    forecast_next_periods (List.replicate 24 0) 12 6 = none := by
  have hm : factor_mean (List.replicate 24 0) 12 = 0 :=
    factor_mean_replicate 0 (by norm_num) (by norm_num)
  have hcsf : calculate_seasonal_factors (List.replicate 24 0) 12 = none := by
    simp only [calculate_seasonal_factors, hm]
    simp
  simp only [forecast_next_periods, hcsf]
  rw [if_neg (by norm_num [List.length_replicate]),
    calculate_moving_average_run _ (by norm_num)]

/-- C7 amended: for every nonzero constant `c` and flat series of
length `≥ 2s`, the forecast is the constant sequence `c` of length
`periods` (zero trend, neutral seasonality). -/
theorem forecast_flat (c : ℚ) (n s periods : ℕ)
    (hc : c ≠ 0) (hs : 1 ≤ s) (hN : s * 2 ≤ n) :
    forecast_next_periods (List.replicate n c) s periods =
      some (List.replicate periods c) := by
  have hs0 : s ≠ 0 := by omega
  have hsn : s ≤ n := by omega
  have hm : factor_mean (List.replicate n c) s ≠ 0 := by
    rw [factor_mean_replicate c hs0 hsn]
    exact hc
  have hlen : s * 2 ≤ (List.replicate n c).length := by simp [hN]
  rw [forecast_next_periods_run _ periods hs0 hlen hm]
  have hma : ((List.range ((List.replicate n c).length + 1 - s)).map fun j =>
      (((List.replicate n c).drop j).take s).sum / (s : ℚ)) =
      List.replicate (n + 1 - s) c := by
    have h2 := moving_average_replicate c hs0 hsn
    rw [calculate_moving_average_run _ hs0] at h2
    exact Option.some.inj h2
  congr 1
  refine List.eq_replicate_iff.mpr ⟨by simp, ?_⟩
  intro b hb
  rw [List.mem_map] at hb
  obtain ⟨i, hi, rfl⟩ := hb
  rw [hma, trend_change_replicate, last_level_replicate c hs0 hsn,
    raw_seasonal_factors_replicate c hsn, factor_mean_replicate c hs0 hsn,
    List.map_replicate, div_self hc]
  have hidx : ((List.replicate n c).length + i) % s < s :=
    Nat.mod_lt _ (by omega)
  rw [List.getD_eq_getElem?_getD, List.getElem?_replicate_of_lt hidx]
  simp

/-- C7 amended witness: the flat series of four `5`s with `s = 2`
forecasts three further `5`s. -/
theorem forecast_flat_witness :
    forecast_next_periods (List.replicate 4 5) 2 3 =
      some (List.replicate 3 5) :=
  forecast_flat 5 4 2 3 (by norm_num) (by norm_num) (by norm_num)

end SimpleTimeSeries
